import Mathlib

/-!
# Verification of the Xtark R20 serial protocol engine

Shallow embedding of `xtark_r20_controller.py`: the frame codec
(`_send_packet` / `_receive_data`), the telemetry decoder and odometry
integrator (`_process_received_data`), and the session lifecycle
(`connect` / `disconnect` / `set_velocity` and the read-loop error path).

Bytes are modelled as `Nat` (with explicit `% 256` where the code masks,
and explicit `< 256` hypotheses where byte-ness matters).  Python floats
are modelled as real numbers for the telemetry/odometry arithmetic and as
rationals where exact integer truncation semantics matter
(`set_velocity`).
-/

namespace XtarkR20

/-! ## Frame codec constants (class attributes of `XtarkR20Controller`) -/

def HEADER1 : Nat := 0xAA
def HEADER2 : Nat := 0x55

def CMD_VELOCITY : Nat := 0x50
def CMD_IMU_CALIBRATE : Nat := 0x51
def CMD_RGB_LIGHT : Nat := 0x52
def CMD_LIGHT_SAVE : Nat := 0x53
def CMD_BEEPER : Nat := 0x54
def CMD_ROBOT_TYPE : Nat := 0x5A
def ID_INTEGRATED_DATA : Nat := 0x10

/-- The fixed payload width each outbound command packs
(`struct.pack` format strings in the setters):
velocity `<hhh` = 6, IMU-calibrate `B` = 1, RGB light `<BBBBBB` = 6,
light-save `B` = 1, beeper `B` = 1, robot-type `B` = 1. -/
def commandWidth : Nat → Option Nat
  | 0x50 => some 6
  | 0x51 => some 1
  | 0x52 => some 6
  | 0x53 => some 1
  | 0x54 => some 1
  | 0x5A => some 1
  | _ => none

/-- `_send_packet`: `[HEADER1, HEADER2, total_len, cmd_id] ++ data ++ [checksum]`
with `total_len = 5 + len(data)` and
`checksum = sum(packet_without_checksum) & 0xFF`. -/
def encodePacket (cmd : Nat) (payload : List Nat) : List Nat :=
  let body : List Nat := [HEADER1, HEADER2, 5 + payload.length, cmd] ++ payload
  body ++ [body.sum % 256]

/-- `buffer.find(bytes([HEADER1, HEADER2]))`: index of the first occurrence
of the two-byte synchronization marker, `none` when absent. -/
def findMarker : List Nat → Option Nat
  | a :: b :: rest =>
    if a = HEADER1 ∧ b = HEADER2 then some 0
    else (findMarker (b :: rest)).map (· + 1)
  | _ => none

/-- One observable event of the decode loop in `_receive_data`:
bytes dropped without a frame, or a checksum-valid frame handed to
`_process_received_data`. -/
inductive RxEvent where
  | discard (n : Nat)
  | valid (cmd : Nat) (payload : List Nat) (consumed : Nat)
  deriving DecidableEq, Repr

/-- Result of running the inner `while len(buffer) >= 5` loop of
`_receive_data` to completion on the current buffer: the events it
produced in order, the bytes left in `buffer` when it stops, and whether
an exception escaped to the outer handler (which disconnects). -/
structure DrainOut where
  events : List RxEvent
  final : List Nat
  crashed : Bool
  deriving DecidableEq, Repr

/-- The inner decode loop of `_receive_data`, run until it breaks, clears
the buffer, or an exception escapes.  Mirrors the Python line by line:

* `while len(buffer) >= 5` — stop with the buffer unchanged otherwise;
* `buffer.find(header)` absent → `buffer.clear(); break`;
* slice the buffer to start at the marker (`buffer = buffer[header_index:]`),
  recording the dropped prefix;
* `len(buffer) < 4` → break;
* `total_len = buffer[2]`; `len(buffer) < total_len` → break;
* `packet = buffer[:total_len]`; `packet[-1]` raises `IndexError` when
  `total_len = 0` (crash);
* checksum compare `sum(packet[:-1]) & 0xFF == packet[-1]`; on match,
  `packet[3]` would raise when `total_len < 4` (crash; in fact
  unreachable), else the frame `(packet[3], packet[4:-1])` is processed;
* `buffer = buffer[total_len:]` and loop. -/
def drain (buf : List Nat) : DrainOut :=
  if _h5 : buf.length < 5 then ⟨[], buf, false⟩
  else
    match findMarker buf with
    | none => ⟨[.discard buf.length], [], false⟩
    | some k =>
      let pre : List RxEvent := if k = 0 then [] else [.discard k]
      if _h4 : (buf.drop k).length < 4 then ⟨pre, buf.drop k, false⟩
      else
        let L := (buf.drop k).getD 2 0
        if _hL : (buf.drop k).length < L then ⟨pre, buf.drop k, false⟩
        else
          if _hz : L = 0 then ⟨pre, buf.drop k, true⟩
          else
            if _hc : ((buf.drop k).take (L - 1)).sum % 256 = (buf.drop k).getD (L - 1) 0 then
              if L < 4 then ⟨pre, buf.drop k, true⟩
              else
                let rest := drain ((buf.drop k).drop L)
                ⟨pre ++ .valid ((buf.drop k).getD 3 0)
                        (((buf.drop k).take (L - 1)).drop 4) L :: rest.events,
                 rest.final, rest.crashed⟩
            else
              let rest := drain ((buf.drop k).drop L)
              ⟨pre ++ .discard L :: rest.events, rest.final, rest.crashed⟩
termination_by buf.length
decreasing_by
  all_goals simp only [List.length_drop]; omega

/-- A checksum-valid wire frame exactly as `_receive_data` accepts one:
starts with the marker, its declared length byte equals its length, its
bytes are bytes, and the checksum byte matches. -/
def IsFrameOk (f : List Nat) : Prop :=
  5 ≤ f.length ∧
  f.getD 0 0 = HEADER1 ∧
  f.getD 1 0 = HEADER2 ∧
  f.getD 2 0 = f.length ∧
  (∀ x ∈ f, x < 256) ∧
  (f.take (f.length - 1)).sum % 256 = f.getD (f.length - 1) 0

instance (f : List Nat) : Decidable (IsFrameOk f) := by
  unfold IsFrameOk; infer_instance

/-- The command id `_receive_data` reads from a frame (`packet[3]`). -/
def frameCmd (f : List Nat) : Nat := f.getD 3 0

/-- The payload `_receive_data` reads from a frame (`packet[4:-1]`). -/
def framePayload (f : List Nat) : List Nat := (f.take (f.length - 1)).drop 4

/-- A byte string containing no occurrence of the two-byte marker. -/
def MarkerFree (g : List Nat) : Prop := findMarker g = none

instance (g : List Nat) : Decidable (MarkerFree g) := by
  unfold MarkerFree; infer_instance

/-- Flip bit `b` of the byte at offset `i`. -/
def flipBit (l : List Nat) (i b : Nat) : List Nat :=
  l.set i ((l.getD i 0) ^^^ (2 ^ b))

/-! ## Session lifecycle (`connect` / `disconnect` / read-loop error) -/

/-- `Velocity` dataclass (commanded velocity), modelled over `ℚ`. -/
structure Vel where
  vx : ℚ
  vy : ℚ
  vw : ℚ
  deriving DecidableEq, Repr

/-- Lifecycle-relevant state of `XtarkR20Controller`: the `is_connected`
and `is_running` flags, whether the serial port is open, and
`current_velocity`. -/
structure Session where
  isConnected : Bool
  isRunning : Bool
  serialOpen : Bool
  velocity : Vel
  deriving DecidableEq, Repr

/-- `disconnect()`: guarded by `if self.is_connected`; when connected it
sends a zero-velocity command and overwrites `current_velocity` with
zeros (via `set_velocity(0,0,0)`), stops the read loop, closes the
serial port, and clears `is_connected`.  When not connected, nothing
happens. -/
def disconnect (s : Session) : Session :=
  if s.isConnected then
    { isConnected := false, isRunning := false, serialOpen := false,
      velocity := ⟨0, 0, 0⟩ }
  else s

/-- The `except` branch of `_receive_data`: on an exception in the read
loop the code runs `self.is_connected = False; break` — it does not stop
`is_running`, close the port, or touch the commanded velocity. -/
def readLoopError (s : Session) : Session :=
  { s with isConnected := false }

/-- One pass of the outer read loop restricted to its lifecycle effect:
if the decode phase raises (crash), the handler marks the session
disconnected; otherwise the session state is untouched. -/
def readPass (s : Session) (chunk : List Nat) : Session :=
  if (drain chunk).crashed then readLoopError s else s

/-- A connected session with a nonzero commanded velocity. -/
def sConn : Session :=
  { isConnected := true, isRunning := true, serialOpen := true,
    velocity := ⟨1, 0, 0⟩ }

/-! ## `set_velocity` and `struct.pack('<hhh', ...)` -/

/-- Python `int()` applied to an exact value: truncation toward zero. -/
def pyTrunc (q : ℚ) : Int := if 0 ≤ q then ⌊q⌋ else ⌈q⌉

/-- The signed 16-bit range `struct.pack` format `h` accepts. -/
def inInt16 (x : Int) : Prop := -32768 ≤ x ∧ x ≤ 32767

instance (x : Int) : Decidable (inInt16 x) := by
  unfold inInt16; infer_instance

/-- Two's-complement 16-bit representation of an in-range integer. -/
def toUInt16 (x : Int) : Nat := (x % 65536).toNat

/-- Little-endian bytes of a signed 16-bit value (format `<h`). -/
def i16le (x : Int) : List Nat := [toUInt16 x % 256, toUInt16 x / 256]

/-- Little-endian bytes of an unsigned 16-bit value (format `<H`). -/
def u16le (u : Nat) : List Nat := [u % 256, u / 256]

/-- `struct.pack('<hhh', x, y, z)`: `none` models the `struct.error`
raised when any argument is outside the signed 16-bit range. -/
def pack3h (x y z : Int) : Option (List Nat) :=
  if inInt16 x ∧ inInt16 y ∧ inInt16 z then
    some (i16le x ++ i16le y ++ i16le z)
  else none

/-- Outcome of a `set_velocity` call: silently ignored when not
connected, a `struct.error` escaping the caller (state unchanged, no
bytes written), or a packet written and the commanded velocity
overwritten. -/
inductive SetVelResult where
  | noop (s : Session)
  | raised (s : Session)
  | sent (s : Session) (packet : List Nat)
  deriving DecidableEq, Repr

/-- `set_velocity(vx, vy, vw)`: returns unless connected; computes
`int(v * 1000)` for each component; `struct.pack('<hhh', ...)` raises
`struct.error` (uncaught) if any is out of range — before `_send_packet`
runs and before `current_velocity` is assigned; otherwise sends the
packet and stores the commanded velocity. -/
def setVelocity (s : Session) (vx vy vw : ℚ) : SetVelResult :=
  if s.isConnected = false then .noop s
  else
    match pack3h (pyTrunc (vx * 1000)) (pyTrunc (vy * 1000)) (pyTrunc (vw * 1000)) with
    | none => .raised s
    | some data => .sent { s with velocity := ⟨vx, vy, vw⟩ } (encodePacket CMD_VELOCITY data)

/-! ## Telemetry decoding and odometry (`_process_received_data`) -/

/-- Little-endian unsigned 16-bit recombination of two bytes. -/
def uint16le (lo hi : Nat) : Nat := lo + 256 * hi

/-- Signed interpretation of a 16-bit value (format `h`). -/
def toInt16 (u : Nat) : Int := if u < 32768 then (u : Int) else (u : Int) - 65536

/-- The `i`-th signed field of `struct.unpack('<hhhhhhhhhH', data)`,
`0 ≤ i < 9`. -/
def rawField (data : List Nat) (i : Nat) : Int :=
  toInt16 (uint16le (data.getD (2 * i) 0) (data.getD (2 * i + 1) 0))

/-- The trailing unsigned field (`H`) of the 20-byte payload. -/
def rawBattery (data : List Nat) : Nat :=
  uint16le (data.getD 18 0) (data.getD 19 0)

/-- The 20-byte little-endian packing of nine signed and one unsigned
16-bit raw field (the wire form `struct.unpack('<hhhhhhhhhH')` reads). -/
def packTelemetry (r0 r1 r2 r3 r4 r5 r6 r7 r8 : Int) (batt : Nat) : List Nat :=
  i16le r0 ++ i16le r1 ++ i16le r2 ++ i16le r3 ++ i16le r4 ++
  i16le r5 ++ i16le r6 ++ i16le r7 ++ i16le r8 ++ u16le batt

noncomputable section

/-- `GRAVITY = 9.80665`. -/
def GRAVITY : ℝ := 9.80665

/-- `(raw / 32768.0) * 2.0 * GRAVITY` (accelerometer scaling). -/
def accelScale (r : Int) : ℝ := ((r : ℝ) / 32768) * 2 * GRAVITY

/-- `(raw / 32768.0) * 500.0 * (math.pi / 180.0)` (gyro scaling). -/
def gyroScale (r : Int) : ℝ := ((r : ℝ) / 32768) * 500 * (Real.pi / 180)

/-- `raw / 1000.0` (body-frame velocity scaling). -/
def velScale (r : Int) : ℝ := (r : ℝ) / 1000

/-- `raw / 100.0` (battery scaling). -/
def battScale (u : Nat) : ℝ := (u : ℝ) / 100

/-- `IMUData` dataclass. -/
structure IMUData where
  accelX : ℝ
  accelY : ℝ
  accelZ : ℝ
  gyroX : ℝ
  gyroY : ℝ
  gyroZ : ℝ

/-- `OdometryData` dataclass: world pose and measured body velocity. -/
structure OdometryData where
  x : ℝ
  y : ℝ
  theta : ℝ
  vx : ℝ
  vy : ℝ
  vw : ℝ

/-- The telemetry-side state of the controller touched by
`_process_received_data`: IMU data, odometry, battery voltage and
`last_update_time`. -/
structure TelemetryState where
  imu : IMUData
  odom : OdometryData
  battery : ℝ
  lastUpdate : ℝ

/-- Lines 283–290 of the source: the Euler integration step, executed
after the measured velocities have been stored in the odometry record,
reading `theta` from before this update. -/
def odomIntegrate (od : OdometryData) (dt : ℝ) : OdometryData :=
  { od with
    x := od.x + (od.vx * Real.cos od.theta - od.vy * Real.sin od.theta) * dt,
    y := od.y + (od.vx * Real.sin od.theta + od.vy * Real.cos od.theta) * dt,
    theta := od.theta + od.vw * dt }

/-- `_process_received_data(cmd_id, data)` at wall-clock time `now`:
computes `dt = now - last_update_time`; when `cmd_id` is the integrated
data id and the payload has exactly 20 bytes, decodes and scales the ten
fields, overwrites the IMU sample and the measured odometry velocities,
integrates the pose when `dt > 0`, and stores the battery voltage.  In
every case (all other ids, wrong lengths) it finally runs
`self.last_update_time = current_time`. -/
def processReceivedData (st : TelemetryState) (cmdId : Nat) (data : List Nat)
    (now : ℝ) : TelemetryState :=
  let dt := now - st.lastUpdate
  let st' :=
    if cmdId = ID_INTEGRATED_DATA ∧ data.length = 20 then
      let imu' : IMUData :=
        { accelX := accelScale (rawField data 0),
          accelY := accelScale (rawField data 1),
          accelZ := accelScale (rawField data 2),
          gyroX := gyroScale (rawField data 3),
          gyroY := gyroScale (rawField data 4),
          gyroZ := gyroScale (rawField data 5) }
      let od1 : OdometryData :=
        { st.odom with
          vx := velScale (rawField data 6),
          vy := velScale (rawField data 7),
          vw := velScale (rawField data 8) }
      let od2 := if 0 < dt then odomIntegrate od1 dt else od1
      { imu := imu', odom := od2, battery := battScale (rawBattery data),
        lastUpdate := st.lastUpdate }
    else st
  { st' with lastUpdate := now }

/-- The zero-initialized telemetry state of a fresh controller. -/
def initTelemetry : TelemetryState :=
  { imu := ⟨0, 0, 0, 0, 0, 0⟩, odom := ⟨0, 0, 0, 0, 0, 0⟩,
    battery := 0, lastUpdate := 0 }

/-- An odometry record at the origin moving with measured body velocity
`vx = 1, vy = 0, vw = 0` (the concrete input of the odometry test
property). -/
def unitForwardOdom : OdometryData := ⟨0, 0, 0, 1, 0, 0⟩

end

end XtarkR20

namespace XtarkR20

/-! ## Helper lemmas about the frame codec -/

/-- The marker is found at offset 0 of any buffer starting with the two
sync bytes. -/
theorem findMarker_at_zero (l : List Nat) (h2 : 2 ≤ l.length)
    (h0 : l.getD 0 0 = HEADER1) (h1 : l.getD 1 0 = HEADER2) :
    findMarker l = some 0 := by
  match l, h2 with
  | a :: b :: rest, _ =>
    simp only [List.getD_cons_zero, List.getD_cons_succ] at h0 h1
    simp [findMarker, h0, h1]

theorem drain_empty : drain [] = ⟨[], [], false⟩ := by
  rw [drain.eq_def]; simp

/-- A marker hit means the buffer suffix really starts with the sync bytes. -/
theorem findMarker_drop (l : List Nat) (k : Nat) (hm : findMarker l = some k) :
    2 ≤ (l.drop k).length ∧ (l.drop k).getD 0 0 = HEADER1 ∧
      (l.drop k).getD 1 0 = HEADER2 := by
  induction l generalizing k with
  | nil => simp [findMarker] at hm
  | cons a tail ih =>
    cases tail with
    | nil => simp [findMarker] at hm
    | cons b rest =>
      rw [findMarker] at hm
      by_cases hc : a = HEADER1 ∧ b = HEADER2
      · rw [if_pos hc] at hm
        cases hm
        simp [hc.1, hc.2]
      · rw [if_neg hc] at hm
        cases hfm : findMarker (b :: rest) with
        | none => rw [hfm] at hm; simp at hm
        | some k' =>
          rw [hfm] at hm
          simp only [Option.map_some', Option.some.injEq] at hm
          subst hm
          simpa [List.drop_succ_cons] using ih k' hfm

/-- In a marker-free prefix followed by a frame start, the first marker
hit is exactly at the boundary (a marker can never straddle it because a
frame starts with `HEADER1 ≠ HEADER2`). -/
theorem findMarker_append (g f : List Nat) (hg : MarkerFree g)
    (h2 : 2 ≤ f.length) (h0 : f.getD 0 0 = HEADER1) (h1 : f.getD 1 0 = HEADER2) :
    findMarker (g ++ f) = some g.length := by
  induction g with
  | nil => simpa using findMarker_at_zero f h2 h0 h1
  | cons a g' ih =>
    obtain ⟨b, rest, hgf⟩ : ∃ b rest, g' ++ f = b :: rest := by
      cases hgf : g' ++ f with
      | nil =>
        exfalso
        have hf : f = [] := (List.append_eq_nil.mp hgf).2
        rw [hf] at h2
        simp at h2
      | cons b rest => exact ⟨b, rest, rfl⟩
    have hg' : MarkerFree g' := by
      unfold MarkerFree at hg ⊢
      cases g' with
      | nil => simp [findMarker]
      | cons c g'' =>
        rw [findMarker] at hg
        by_cases hc : a = HEADER1 ∧ c = HEADER2
        · rw [if_pos hc] at hg; simp at hg
        · rw [if_neg hc] at hg
          cases hfm : findMarker (c :: g'') with
          | none => rfl
          | some k' => rw [hfm] at hg; simp at hg
    have hcond : ¬(a = HEADER1 ∧ b = HEADER2) := by
      cases g' with
      | nil =>
        simp only [List.nil_append] at hgf
        intro hc
        have hb : f.getD 0 0 = b := by rw [hgf]; simp
        rw [h0, hc.2] at hb
        simp [HEADER1, HEADER2] at hb
      | cons c g'' =>
        simp only [List.cons_append, List.cons.injEq] at hgf
        intro hc
        unfold MarkerFree at hg
        rw [findMarker, if_pos ⟨hc.1, hgf.1 ▸ hc.2⟩] at hg
        simp at hg
    show findMarker (a :: (g' ++ f)) = some (g'.length + 1)
    rw [hgf, findMarker, if_neg hcond, ← hgf, ih hg']
    rfl

/-- Processing a checksum-valid frame found at offset `k`: the prefix is
dropped, the frame is handed over, the buffer ends empty. -/
theorem drain_valid_at (buf f : List Nat) (k : Nat)
    (hm : findMarker buf = some k) (hdrop : buf.drop k = f)
    (h5buf : 5 ≤ buf.length) (h5 : 5 ≤ f.length)
    (hL : f.getD 2 0 = f.length)
    (hck : (f.take (f.length - 1)).sum % 256 = f.getD (f.length - 1) 0) :
    drain buf = ⟨(if k = 0 then [] else [.discard k]) ++
      [.valid (frameCmd f) (framePayload f) f.length], [], false⟩ := by
  rw [drain.eq_def, dif_neg (by omega)]
  simp only [hm]
  rw [hdrop]
  rw [dif_neg (by omega), hL, dif_neg (by omega), dif_neg (by omega), dif_pos hck,
    if_neg (by omega)]
  rw [List.drop_length, drain_empty]
  simp [frameCmd, framePayload]

/-- Processing a checksum-invalid candidate frame at offset 0: the whole
declared frame is discarded and the buffer ends empty. -/
theorem drain_invalid (f : List Nat) (h5 : 5 ≤ f.length)
    (h0 : f.getD 0 0 = HEADER1) (h1 : f.getD 1 0 = HEADER2)
    (hL : f.getD 2 0 = f.length)
    (hck : (f.take (f.length - 1)).sum % 256 ≠ f.getD (f.length - 1) 0) :
    drain f = ⟨[.discard f.length], [], false⟩ := by
  rw [drain.eq_def, dif_neg (by omega)]
  simp only [findMarker_at_zero f (by omega) h0 h1]
  simp only [List.drop_zero]
  rw [dif_neg (by omega), hL, dif_neg (by omega), dif_neg (by omega), dif_neg hck]
  rw [List.drop_length, drain_empty]
  simp

/-- Decoding a lone checksum-valid frame yields exactly its command id,
payload and length. -/
theorem drain_valid (f : List Nat) (h5 : 5 ≤ f.length)
    (h0 : f.getD 0 0 = HEADER1) (h1 : f.getD 1 0 = HEADER2)
    (hL : f.getD 2 0 = f.length)
    (hck : (f.take (f.length - 1)).sum % 256 = f.getD (f.length - 1) 0) :
    drain f = ⟨[.valid (frameCmd f) (framePayload f) f.length], [], false⟩ := by
  have := drain_valid_at f f 0 (findMarker_at_zero f (by omega) h0 h1)
    (List.drop_zero f) h5 h5 hL hck
  simpa using this

/-! ## Helper lemmas about list surgery and bit flips -/

theorem getD_set_ne (l : List Nat) (i j a : Nat) (h : i ≠ j) :
    (l.set i a).getD j 0 = l.getD j 0 := by
  simp [List.getD_eq_getElem?_getD, List.getElem?_set_ne h]

theorem getD_set_self (l : List Nat) (i a : Nat) (h : i < l.length) :
    (l.set i a).getD i 0 = a := by
  simp [List.getD_eq_getElem?_getD, List.getElem?_set_self h]

theorem getD_take_of_lt (l : List Nat) (m i : Nat) (h : i < m) :
    (l.take m).getD i 0 = l.getD i 0 := by
  simp [List.getD_eq_getElem?_getD, List.getElem?_take_of_lt h]

theorem sum_set_add (l : List Nat) (i a : Nat) (h : i < l.length) :
    (l.set i a).sum + l.getD i 0 = l.sum + a := by
  induction l generalizing i with
  | nil => simp at h
  | cons x t ih =>
    cases i with
    | zero => simp [List.sum_cons]; omega
    | succ j =>
      simp only [List.set_cons_succ, List.sum_cons, List.getD_cons_succ]
      have := ih j (by simpa using h)
      omega

theorem getD_lt_of_bytes (l : List Nat) (i : Nat) (hb : ∀ x ∈ l, x < 256)
    (h : i < l.length) : l.getD i 0 < 256 := by
  rw [List.getD_eq_getElem l 0 h]
  exact hb _ (l.getElem_mem h)

theorem xor_pow_ne (x b : Nat) : x ^^^ 2 ^ b ≠ x := by
  intro h
  have h2 : x ^^^ 2 ^ b = x ^^^ 0 := by rw [Nat.xor_zero]; exact h
  have := Nat.xor_right_inj.mp h2
  have hpos : 0 < 2 ^ b := Nat.pos_pow_of_pos b (by omega)
  omega

theorem xor_pow_lt (x b : Nat) (hx : x < 256) (hb : b < 8) : x ^^^ 2 ^ b < 256 := by
  have h1 : x < 2 ^ 8 := by norm_num at hx ⊢; omega
  have h2 : 2 ^ b < 2 ^ 8 := Nat.pow_lt_pow_right (by omega) hb
  have := Nat.xor_lt_two_pow h1 h2
  norm_num at this
  omega

/-! ## Helper lemmas about 16-bit packing -/

theorem uint16le_split (u : Nat) : uint16le (u % 256) (u / 256) = u := by
  rw [uint16le]
  omega

theorem toInt16_toUInt16 (x : Int) (h : inInt16 x) : toInt16 (toUInt16 x) = x := by
  rw [toInt16, toUInt16]
  obtain ⟨h1, h2⟩ := h
  split <;> omega

theorem int16_roundtrip (x : Int) (h : inInt16 x) :
    toInt16 (uint16le (toUInt16 x % 256) (toUInt16 x / 256)) = x := by
  rw [uint16le_split]
  exact toInt16_toUInt16 x h

/-! ## Claim C1 -/

/-- Claim C1: for every supported command id and payload of the fixed
width assigned to that command, decoding exactly the byte string produced
by encoding `(cmd, payload)` yields the single event
`valid cmd payload (5 + payload.length)` — no discard precedes it, the
buffer is fully consumed, and no exception occurs. -/
theorem decode_encode_roundtrip (cmd : Nat) (p : List Nat)
    (hw : commandWidth cmd = some p.length) (hp : ∀ x ∈ p, x < 256) :
    drain (encodePacket cmd p) = ⟨[.valid cmd p (5 + p.length)], [], false⟩ := by
  set body : List Nat := [HEADER1, HEADER2, 5 + p.length, cmd] ++ p with hbody
  set chk : Nat := body.sum % 256 with hchk
  have hE : encodePacket cmd p = body ++ [chk] := rfl
  have hblen : body.length = 4 + p.length := by rw [hbody]; simp; omega
  have hlen : (encodePacket cmd p).length = 5 + p.length := by
    rw [hE]; simp [hblen]; omega
  have htake : (encodePacket cmd p).take ((encodePacket cmd p).length - 1) = body := by
    rw [hE, show (body ++ [chk]).length - 1 = body.length by simp]
    exact List.take_left _ _
  have hlast : (encodePacket cmd p).getD ((encodePacket cmd p).length - 1) 0 = chk := by
    rw [hE, show (body ++ [chk]).length - 1 = body.length by simp,
      List.getD_append_right _ _ _ _ (le_refl _)]
    simp
  have h0 : (encodePacket cmd p).getD 0 0 = HEADER1 := by
    rw [hE, List.getD_append _ _ _ _ (by omega), hbody,
      List.getD_append _ _ _ _ (by simp)]
    rfl
  have h1 : (encodePacket cmd p).getD 1 0 = HEADER2 := by
    rw [hE, List.getD_append _ _ _ _ (by omega), hbody,
      List.getD_append _ _ _ _ (by simp)]
    rfl
  have h2 : (encodePacket cmd p).getD 2 0 = 5 + p.length := by
    rw [hE, List.getD_append _ _ _ _ (by omega), hbody,
      List.getD_append _ _ _ _ (by simp)]
    rfl
  have hcmd : frameCmd (encodePacket cmd p) = cmd := by
    rw [frameCmd, hE, List.getD_append _ _ _ _ (by omega), hbody,
      List.getD_append _ _ _ _ (by simp)]
    rfl
  have hpay : framePayload (encodePacket cmd p) = p := by
    rw [framePayload, htake, hbody]
    exact List.drop_left' (by simp)
  have h := drain_valid (encodePacket cmd p) (by omega) h0 h1 (by rw [h2, hlen])
    (by rw [htake, hlast])
  rw [h, hcmd, hpay, hlen]

/-- Witness for C1 at the beeper command with payload `[1]`. -/
theorem decode_encode_roundtrip_witness :
    drain (encodePacket CMD_BEEPER [1]) = ⟨[.valid CMD_BEEPER [1] 6], [], false⟩ := by
  have := decode_encode_roundtrip CMD_BEEPER [1] (by decide) (by decide)
  simpa using this

/-! ## Claim C2 -/

/-- Claim C2 counterexample: the claim quantifies over flips of *any*
byte, including the length and sync bytes.  Flipping bit 0 of the length
byte of the checksum-valid frame `AA 55 07 50 00 55 AB` yields a buffer
that decodes to the *different* frame `valid 0x50 [0] 6` — a ValidFrame
is reported, not InvalidDiscard.  Likewise, flipping bit 0 of the first
sync byte of the checksum-valid frame
`AA 55 0B 52 AA 55 06 54 01 5A 10` (whose payload embeds a complete
beeper frame) makes the decoder resynchronize inside the old payload and
report `valid 0x54 [1] 6`. -/
theorem bitflip_false_positive_cex :
    IsFrameOk [0xAA, 0x55, 0x07, 0x50, 0x00, 0x55, 0xAB]
    ∧ flipBit [0xAA, 0x55, 0x07, 0x50, 0x00, 0x55, 0xAB] 2 0
        = [0xAA, 0x55, 0x06, 0x50, 0x00, 0x55, 0xAB]
    ∧ drain [0xAA, 0x55, 0x06, 0x50, 0x00, 0x55, 0xAB]
        = ⟨[.valid 0x50 [0x00] 6], [0xAB], false⟩
    ∧ IsFrameOk [0xAA, 0x55, 0x0B, 0x52, 0xAA, 0x55, 0x06, 0x54, 0x01, 0x5A, 0x10]
    ∧ flipBit [0xAA, 0x55, 0x0B, 0x52, 0xAA, 0x55, 0x06, 0x54, 0x01, 0x5A, 0x10] 0 0
        = [0xAB, 0x55, 0x0B, 0x52, 0xAA, 0x55, 0x06, 0x54, 0x01, 0x5A, 0x10]
    ∧ drain [0xAB, 0x55, 0x0B, 0x52, 0xAA, 0x55, 0x06, 0x54, 0x01, 0x5A, 0x10]
        = ⟨[.discard 4, .valid 0x54 [0x01] 6], [0x10], false⟩ := by
  refine ⟨by decide, by decide, ?_, by decide, by decide, ?_⟩
  · rw [drain.eq_def]
    simp only [show findMarker [0xAA, 0x55, 0x06, 0x50, 0x00, 0x55, 0xAB]
      = some 0 from by decide]
    norm_num
    rw [drain.eq_def]
    norm_num
  · rw [drain.eq_def]
    simp only [show findMarker [0xAB, 0x55, 0x0B, 0x52, 0xAA, 0x55, 0x06, 0x54, 0x01,
      0x5A, 0x10] = some 4 from by decide]
    norm_num
    rw [drain.eq_def]
    norm_num

/-- Claim C2 (amended): flipping a single bit of the command byte, any
payload byte, or the checksum byte (offsets ≥ 3) of a checksum-valid wire
frame always makes the decoder report InvalidDiscard of the whole declared
frame and never a ValidFrame; flips in the sync bytes or the length byte
are excluded because they can produce other outcomes, including a
different ValidFrame. -/
theorem bitflip_checksum_rejects (f : List Nat) (i b : Nat) (hf : IsFrameOk f)
    (hi3 : 3 ≤ i) (hiL : i < f.length) (hb : b < 8) :
    drain (flipBit f i b) = ⟨[.discard f.length], [], false⟩ := by
  obtain ⟨h5, h0, h1, hL, hbytes, hck⟩ := hf
  set n := f.length with hn
  set x := f.getD i 0 with hx
  set x' := x ^^^ 2 ^ b with hx'
  have hxlt : x < 256 := getD_lt_of_bytes f i hbytes hiL
  have hx'lt : x' < 256 := xor_pow_lt x b hxlt hb
  have hxne : x' ≠ x := xor_pow_ne x b
  have hlen' : (flipBit f i b).length = n := by
    simp [flipBit, List.length_set]
  have h0' : (flipBit f i b).getD 0 0 = HEADER1 := by
    rw [flipBit, getD_set_ne _ _ _ _ (by omega)]; exact h0
  have h1' : (flipBit f i b).getD 1 0 = HEADER2 := by
    rw [flipBit, getD_set_ne _ _ _ _ (by omega)]; exact h1
  have hL' : (flipBit f i b).getD 2 0 = (flipBit f i b).length := by
    rw [flipBit, getD_set_ne _ _ _ _ (by omega), List.length_set, hL]
  have hmis : ((flipBit f i b).take ((flipBit f i b).length - 1)).sum % 256
      ≠ (flipBit f i b).getD ((flipBit f i b).length - 1) 0 := by
    rw [hlen']
    by_cases hi : i = n - 1
    · have htk : (flipBit f i b).take (n - 1) = f.take (n - 1) := by
        rw [flipBit, List.set_take, List.set_eq_of_length_le]
        rw [List.length_take]
        omega
      have hrecv : (flipBit f i b).getD (n - 1) 0 = x' := by
        rw [flipBit, ← hi, getD_set_self _ _ _ (by omega)]
      rw [htk, hrecv, hck, ← hi, ← hx]
      omega
    · have hi' : i < n - 1 := by omega
      have htk : (flipBit f i b).take (n - 1) = (f.take (n - 1)).set i x' := by
        rw [flipBit, List.set_take]
      have hrecv : (flipBit f i b).getD (n - 1) 0 = f.getD (n - 1) 0 := by
        rw [flipBit, getD_set_ne _ _ _ _ (by omega)]
      rw [htk, hrecv]
      have hilen : i < (f.take (n - 1)).length := by
        rw [List.length_take]; omega
      have hgd : (f.take (n - 1)).getD i 0 = x := getD_take_of_lt f (n - 1) i hi'
      have hsum := sum_set_add (f.take (n - 1)) i x' hilen
      rw [hgd] at hsum
      intro hcontra
      rw [← hck] at hcontra
      omega
  have := drain_invalid (flipBit f i b) (by omega) h0' h1' hL' hmis
  rw [this, hlen', hn]

/-- Witness for C2 (amended) at a payload-byte flip of the beeper frame. -/
theorem bitflip_checksum_rejects_witness :
    drain (flipBit [0xAA, 0x55, 0x06, 0x54, 0x01, 0x5A] 4 0) = ⟨[.discard 6], [], false⟩ := by
  have := bitflip_checksum_rejects [0xAA, 0x55, 0x06, 0x54, 0x01, 0x5A] 4 0
    (by decide) (by norm_num) (by norm_num) (by norm_num)
  simpa using this

/-! ## Claim C3 -/

/-- Claim C3: the claim states frame-level errors (including a declared
total_length of 0) never escalate past frame discard and never disconnect
the session.  The code violates it: on the five bytes
`AA 55 00 00 00` the declared total_length is 0, so `packet = buffer[:0]`
is empty and `packet[-1]` raises IndexError, which the read loop's
catch-all turns into `is_connected = False` and loop exit.  This theorem
evaluates the model at that failing input. -/
theorem zero_length_frame_kills_session :
    (drain [0xAA, 0x55, 0x00, 0x00, 0x00]).crashed = true ∧
    (readPass sConn [0xAA, 0x55, 0x00, 0x00, 0x00]).isConnected = false := by
  have hc : (drain [0xAA, 0x55, 0x00, 0x00, 0x00]).crashed = true := by
    rw [drain.eq_def]
    simp only [show findMarker [0xAA, 0x55, 0x00, 0x00, 0x00] = some 0 from by decide]
    simp
  exact ⟨hc, by simp [readPass, hc, readLoopError]⟩

/-! ## Claim C4 -/

/-- Claim C4 counterexample: a decode pass over the four garbage bytes
`01 02 03 04` leaves them all in the buffer (the inner loop requires at
least five bytes to run), so the buffer is neither empty nor does it start
with the synchronization marker — leading non-marker garbage is retained
across passes. -/
theorem buffer_retains_short_garbage_cex :
    drain [1, 2, 3, 4] = ⟨[], [1, 2, 3, 4], false⟩
    ∧ ([1, 2, 3, 4] : List Nat) ≠ []
    ∧ ¬([1, 2, 3, 4].getD 0 0 = HEADER1 ∧ [1, 2, 3, 4].getD 1 0 = HEADER2) := by
  refine ⟨?_, by simp, by decide⟩
  rw [drain.eq_def]; simp

/-- Claim C4 (amended): after every non-crashing decode pass the buffer is
either empty, or shorter than five bytes (possibly arbitrary garbage), or
it starts with the synchronization marker and is shorter than the
total_length it declares. -/
theorem buffer_pass_invariant (buf : List Nat) (h : (drain buf).crashed = false) :
    (drain buf).final = [] ∨ (drain buf).final.length < 5 ∨
    ((drain buf).final.getD 0 0 = HEADER1 ∧ (drain buf).final.getD 1 0 = HEADER2 ∧
      (drain buf).final.length < (drain buf).final.getD 2 0) := by
  induction buf using drain.induct with
  | case1 x hx5 =>
    rw [drain.eq_def, dif_pos hx5]
    right; left; exact hx5
  | case2 x hx5 hm =>
    rw [drain.eq_def, dif_neg hx5]
    simp only [hm]
    left; simp
  | case3 x hx5 k hm h4 =>
    rw [drain.eq_def, dif_neg hx5]
    simp only [hm]
    rw [dif_pos h4]
    right; left
    show (List.drop k x).length < 5
    rw [List.length_drop]
    rw [List.length_drop] at h4
    omega
  | case4 x hx5 k hm h4 L hlt =>
    have hLdef : L = (List.drop k x).getD 2 0 := rfl
    rw [hLdef] at hlt
    rw [drain.eq_def, dif_neg hx5]
    simp only [hm]
    rw [dif_neg h4, dif_pos hlt]
    right; right
    obtain ⟨-, hh0, hh1⟩ := findMarker_drop x k hm
    exact ⟨hh0, hh1, hlt⟩
  | case5 x hx5 k hm h4 L hlt hz =>
    have hLdef : L = (List.drop k x).getD 2 0 := rfl
    rw [hLdef] at hlt hz
    rw [drain.eq_def, dif_neg hx5] at h
    simp only [hm] at h
    rw [dif_neg h4, dif_neg hlt, dif_pos hz] at h
    simp at h
  | case6 x hx5 k hm h4 L hlt hz hc hlt4 =>
    have hLdef : L = (List.drop k x).getD 2 0 := rfl
    rw [hLdef] at hlt hz hc hlt4
    rw [drain.eq_def, dif_neg hx5] at h
    simp only [hm] at h
    rw [dif_neg h4, dif_neg hlt, dif_neg hz, dif_pos hc, if_pos hlt4] at h
    simp at h
  | case7 x hx5 k hm h4 L hlt hz hc hlt4 ih =>
    have hLdef : L = (List.drop k x).getD 2 0 := rfl
    rw [hLdef] at hlt hz hc hlt4 ih
    rw [drain.eq_def, dif_neg hx5] at h ⊢
    simp only [hm] at h ⊢
    rw [dif_neg h4, dif_neg hlt, dif_neg hz, dif_pos hc, if_neg hlt4] at h ⊢
    exact ih h
  | case8 x hx5 k hm h4 L hlt hz hc ih =>
    have hLdef : L = (List.drop k x).getD 2 0 := rfl
    rw [hLdef] at hlt hz hc ih
    rw [drain.eq_def, dif_neg hx5] at h ⊢
    simp only [hm] at h ⊢
    rw [dif_neg h4, dif_neg hlt, dif_neg hz, dif_neg hc] at h ⊢
    exact ih h

/-- Witness for C4 (amended) on six marker-free bytes. -/
theorem buffer_pass_invariant_witness :
    (drain [0, 0, 0, 0, 0, 0]).final = [] ∨ (drain [0, 0, 0, 0, 0, 0]).final.length < 5 ∨
    ((drain [0, 0, 0, 0, 0, 0]).final.getD 0 0 = HEADER1 ∧
      (drain [0, 0, 0, 0, 0, 0]).final.getD 1 0 = HEADER2 ∧
      (drain [0, 0, 0, 0, 0, 0]).final.length < (drain [0, 0, 0, 0, 0, 0]).final.getD 2 0) :=
  buffer_pass_invariant [0, 0, 0, 0, 0, 0] (by
    rw [drain.eq_def]
    simp only [show findMarker [0, 0, 0, 0, 0, 0] = none from by decide]
    simp)

/-! ## Claim C8 -/

/-- Claim C8 counterexample: the claim quantifies over *every* garbage
prefix.  The garbage `AA 55 09` contains the marker, so the decoder locks
onto it, reads declared length 9, swallows the first six bytes of the
following valid beeper frame into a checksum-failing candidate and
discards all nine bytes: the valid frame is destroyed and its ValidFrame
is never reported. -/
theorem resync_marker_garbage_cex :
    IsFrameOk [0xAA, 0x55, 0x06, 0x54, 0x01, 0x5A]
    ∧ drain [0xAA, 0x55, 0x06, 0x54, 0x01, 0x5A]
        = ⟨[.valid 0x54 [0x01] 6], [], false⟩
    ∧ drain ([0xAA, 0x55, 0x09] ++ [0xAA, 0x55, 0x06, 0x54, 0x01, 0x5A])
        = ⟨[.discard 9], [], false⟩ := by
  refine ⟨by decide, ?_, ?_⟩
  · rw [drain.eq_def]
    simp only [show findMarker [0xAA, 0x55, 0x06, 0x54, 0x01, 0x5A] = some 0 from by decide]
    norm_num
    rw [drain.eq_def]
    norm_num
  · show drain [0xAA, 0x55, 0x09, 0xAA, 0x55, 0x06, 0x54, 0x01, 0x5A] = _
    rw [drain.eq_def]
    simp only [show findMarker [0xAA, 0x55, 0x09, 0xAA, 0x55, 0x06, 0x54, 0x01, 0x5A]
      = some 0 from by decide]
    norm_num
    rw [drain.eq_def]
    norm_num

/-- Claim C8 (amended): for every garbage prefix that contains no
occurrence of the two-byte marker, decoding `garbage ++ frame` discards
exactly the garbage prefix and then yields the same ValidFrame (same
command id, payload and consumed length) as decoding the frame alone. -/
theorem resync_after_marker_free_garbage (g f : List Nat)
    (hg : MarkerFree g) (hf : IsFrameOk f) :
    drain (g ++ f) = ⟨(if g.length = 0 then [] else [.discard g.length]) ++
        [.valid (frameCmd f) (framePayload f) f.length], [], false⟩ ∧
    drain f = ⟨[.valid (frameCmd f) (framePayload f) f.length], [], false⟩ := by
  obtain ⟨h5, h0, h1, hL, _hb, hck⟩ := hf
  constructor
  · exact drain_valid_at (g ++ f) f g.length
      (findMarker_append g f hg (by omega) h0 h1)
      (List.drop_left _ _)
      (by simp [List.length_append]; omega)
      h5 hL hck
  · exact drain_valid f h5 h0 h1 hL hck

/-- Witness for C8 (amended) with garbage `[1, 2]` before a beeper frame. -/
theorem resync_after_marker_free_garbage_witness :
    drain ([1, 2] ++ [0xAA, 0x55, 0x06, 0x54, 0x01, 0x5A])
      = ⟨[.discard 2, .valid 0x54 [0x01] 6], [], false⟩ := by
  have := (resync_after_marker_free_garbage [1, 2] [0xAA, 0x55, 0x06, 0x54, 0x01, 0x5A]
    (by decide) (by decide)).1
  simpa [frameCmd, framePayload] using this

/-! ## Claim C5 -/

/-- Claim C5: on each accepted 20-byte telemetry sample with `dt > 0` the
pose advances by exactly `dx = (vx cos θ − vy sin θ) dt`,
`dy = (vx sin θ + vy cos θ) dt`, `dθ = vw dt`, where `θ` is the heading
from before this update and `(vx, vy, vw)` the just-decoded measured
velocity; with `dt ≤ 0` the pose is unchanged; and three consecutive
integrations from heading 0 with measured `vx = 1, vy = 0, vw = 0` and
`dt = 1` each yield `x = 3, y = 0, θ = 0`. -/
theorem odometry_integration_step (st : TelemetryState) (data : List Nat) (now : ℝ)
    (hlen : data.length = 20) :
    (0 < now - st.lastUpdate →
      (processReceivedData st ID_INTEGRATED_DATA data now).odom.x
          = st.odom.x + (velScale (rawField data 6) * Real.cos st.odom.theta
              - velScale (rawField data 7) * Real.sin st.odom.theta) * (now - st.lastUpdate)
        ∧ (processReceivedData st ID_INTEGRATED_DATA data now).odom.y
          = st.odom.y + (velScale (rawField data 6) * Real.sin st.odom.theta
              + velScale (rawField data 7) * Real.cos st.odom.theta) * (now - st.lastUpdate)
        ∧ (processReceivedData st ID_INTEGRATED_DATA data now).odom.theta
          = st.odom.theta + velScale (rawField data 8) * (now - st.lastUpdate))
    ∧ (now - st.lastUpdate ≤ 0 →
        (processReceivedData st ID_INTEGRATED_DATA data now).odom.x = st.odom.x
        ∧ (processReceivedData st ID_INTEGRATED_DATA data now).odom.y = st.odom.y
        ∧ (processReceivedData st ID_INTEGRATED_DATA data now).odom.theta = st.odom.theta)
    ∧ ((odomIntegrate (odomIntegrate (odomIntegrate unitForwardOdom 1) 1) 1).x = 3
        ∧ (odomIntegrate (odomIntegrate (odomIntegrate unitForwardOdom 1) 1) 1).y = 0
        ∧ (odomIntegrate (odomIntegrate (odomIntegrate unitForwardOdom 1) 1) 1).theta = 0) := by
  refine ⟨?_, ?_, ?_⟩
  · intro hdt
    have h' : st.lastUpdate < now := by linarith
    simp [processReceivedData, hlen, odomIntegrate, h']
  · intro hdt
    have h' : ¬st.lastUpdate < now := by linarith
    simp [processReceivedData, hlen, h']
  · simp [odomIntegrate, unitForwardOdom]
    norm_num [Real.cos_zero, Real.sin_zero]

/-- Witness for C5: an all-zero sample arriving at `now = 0` (so
`dt = 0 ≤ 0`) leaves the pose of the fresh controller unchanged. -/
theorem odometry_integration_step_witness :
    (processReceivedData initTelemetry ID_INTEGRATED_DATA (List.replicate 20 0) 0).odom.x
        = initTelemetry.odom.x
    ∧ (processReceivedData initTelemetry ID_INTEGRATED_DATA (List.replicate 20 0) 0).odom.y
        = initTelemetry.odom.y
    ∧ (processReceivedData initTelemetry ID_INTEGRATED_DATA (List.replicate 20 0) 0).odom.theta
        = initTelemetry.odom.theta :=
  (odometry_integration_step initTelemetry (List.replicate 20 0) 0 (by simp)).2.1
    (by norm_num [initTelemetry])

/-! ## Claim C6 -/

/-- Claim C6 counterexample: a checksum-valid frame with the beeper
command id (not the telemetry id) *does* move the reference timestamp
`last_update_time` — from 0 to 5 here — because the code updates it on
every processed frame, contradicting the claim that such frames do not
affect the reference from which the next `dt` is measured. -/
theorem timestamp_reset_by_other_frames_cex :
    (processReceivedData initTelemetry CMD_BEEPER [1] 5).lastUpdate = 5
    ∧ initTelemetry.lastUpdate = 0
    ∧ (5 : ℝ) ≠ 0 := by
  refine ⟨?_, rfl, by norm_num⟩
  simp [processReceivedData, CMD_BEEPER, ID_INTEGRATED_DATA, initTelemetry]

/-- Claim C6 (amended): the `dt` used when integrating is measured from
the previous *processed checksum-valid frame of any command id* (or
construction time), not from the previous accepted telemetry sample:
every call of the frame handler sets `last_update_time := now`, and a
frame with another command id, or a telemetry frame of wrong payload
length, changes nothing except that timestamp. -/
theorem process_always_resets_timestamp (st : TelemetryState) (cmdId : Nat)
    (data : List Nat) (now : ℝ) :
    (processReceivedData st cmdId data now).lastUpdate = now ∧
    (¬(cmdId = ID_INTEGRATED_DATA ∧ data.length = 20) →
      processReceivedData st cmdId data now = { st with lastUpdate := now }) := by
  constructor
  · by_cases hc : cmdId = ID_INTEGRATED_DATA ∧ data.length = 20 <;>
      simp [processReceivedData, hc]
  · intro hc
    simp [processReceivedData, hc]

/-- Witness for C6 (amended) at a beeper frame arriving at `now = 5`. -/
theorem process_always_resets_timestamp_witness :
    processReceivedData initTelemetry CMD_BEEPER [1] 5
      = { initTelemetry with lastUpdate := 5 } :=
  (process_always_resets_timestamp initTelemetry CMD_BEEPER [1] 5).2 (by decide)

/-! ## Claim C7 -/

/-- Claim C7: a 20-byte telemetry payload is read as nine signed and one
unsigned little-endian 16-bit fields, scaled exactly by
`(raw/32768)·2·g` (accelerometer), `(raw/32768)·500·(π/180)` (gyro),
`raw/1000` (body velocity) and `raw/100` (battery); in particular raw
accelerometer 16384 decodes to `(16384/32768)·2·9.80665 = 9.80665` and
raw velocity 300 decodes to `0.3`. -/
theorem telemetry_field_scaling (r0 r1 r2 r3 r4 r5 r6 r7 r8 : Int) (batt : Nat)
    (h0 : inInt16 r0) (h1 : inInt16 r1) (h2 : inInt16 r2) (h3 : inInt16 r3)
    (h4 : inInt16 r4) (h5 : inInt16 r5) (h6 : inInt16 r6) (h7 : inInt16 r7)
    (h8 : inInt16 r8) (hbt : batt < 65536) (st : TelemetryState) (now : ℝ) :
    (processReceivedData st ID_INTEGRATED_DATA
        (packTelemetry r0 r1 r2 r3 r4 r5 r6 r7 r8 batt) now).imu.accelX
      = ((r0 : ℝ) / 32768) * 2 * GRAVITY
    ∧ (processReceivedData st ID_INTEGRATED_DATA
        (packTelemetry r0 r1 r2 r3 r4 r5 r6 r7 r8 batt) now).imu.accelY
      = ((r1 : ℝ) / 32768) * 2 * GRAVITY
    ∧ (processReceivedData st ID_INTEGRATED_DATA
        (packTelemetry r0 r1 r2 r3 r4 r5 r6 r7 r8 batt) now).imu.accelZ
      = ((r2 : ℝ) / 32768) * 2 * GRAVITY
    ∧ (processReceivedData st ID_INTEGRATED_DATA
        (packTelemetry r0 r1 r2 r3 r4 r5 r6 r7 r8 batt) now).imu.gyroX
      = ((r3 : ℝ) / 32768) * 500 * (Real.pi / 180)
    ∧ (processReceivedData st ID_INTEGRATED_DATA
        (packTelemetry r0 r1 r2 r3 r4 r5 r6 r7 r8 batt) now).imu.gyroY
      = ((r4 : ℝ) / 32768) * 500 * (Real.pi / 180)
    ∧ (processReceivedData st ID_INTEGRATED_DATA
        (packTelemetry r0 r1 r2 r3 r4 r5 r6 r7 r8 batt) now).imu.gyroZ
      = ((r5 : ℝ) / 32768) * 500 * (Real.pi / 180)
    ∧ (processReceivedData st ID_INTEGRATED_DATA
        (packTelemetry r0 r1 r2 r3 r4 r5 r6 r7 r8 batt) now).odom.vx
      = (r6 : ℝ) / 1000
    ∧ (processReceivedData st ID_INTEGRATED_DATA
        (packTelemetry r0 r1 r2 r3 r4 r5 r6 r7 r8 batt) now).odom.vy
      = (r7 : ℝ) / 1000
    ∧ (processReceivedData st ID_INTEGRATED_DATA
        (packTelemetry r0 r1 r2 r3 r4 r5 r6 r7 r8 batt) now).odom.vw
      = (r8 : ℝ) / 1000
    ∧ (processReceivedData st ID_INTEGRATED_DATA
        (packTelemetry r0 r1 r2 r3 r4 r5 r6 r7 r8 batt) now).battery
      = (batt : ℝ) / 100
    ∧ accelScale 16384 = 9.80665
    ∧ velScale 300 = 0.3 := by
  have hlen : (packTelemetry r0 r1 r2 r3 r4 r5 r6 r7 r8 batt).length = 20 := by
    simp [packTelemetry, i16le, u16le]
  refine ⟨?_, ?_, ?_, ?_, ?_, ?_, ?_, ?_, ?_, ?_, ?_, ?_⟩ <;>
    first
    | ((simp [processReceivedData, hlen, packTelemetry, i16le, u16le, rawField, rawBattery,
          accelScale, gyroScale, velScale, battScale,
          int16_roundtrip r0 h0, int16_roundtrip r1 h1, int16_roundtrip r2 h2,
          int16_roundtrip r3 h3, int16_roundtrip r4 h4, int16_roundtrip r5 h5,
          int16_roundtrip r6 h6, int16_roundtrip r7 h7, int16_roundtrip r8 h8,
          uint16le_split batt]) <;>
        (split <;> simp [odomIntegrate]))
    | norm_num [accelScale, velScale, GRAVITY]

/-- Witness for C7 at raw accelerometer 16384, gyro 1000, velocity 300,
battery 1234, applied to the fresh controller state at `now = 1`. -/
theorem telemetry_field_scaling_witness :
    (processReceivedData initTelemetry ID_INTEGRATED_DATA
        (packTelemetry 16384 0 0 1000 0 0 300 0 0 1234) 1).imu.accelX
      = ((16384 : ℝ) / 32768) * 2 * GRAVITY
    ∧ (processReceivedData initTelemetry ID_INTEGRATED_DATA
        (packTelemetry 16384 0 0 1000 0 0 300 0 0 1234) 1).imu.accelY
      = ((0 : ℝ) / 32768) * 2 * GRAVITY
    ∧ (processReceivedData initTelemetry ID_INTEGRATED_DATA
        (packTelemetry 16384 0 0 1000 0 0 300 0 0 1234) 1).imu.accelZ
      = ((0 : ℝ) / 32768) * 2 * GRAVITY
    ∧ (processReceivedData initTelemetry ID_INTEGRATED_DATA
        (packTelemetry 16384 0 0 1000 0 0 300 0 0 1234) 1).imu.gyroX
      = ((1000 : ℝ) / 32768) * 500 * (Real.pi / 180)
    ∧ (processReceivedData initTelemetry ID_INTEGRATED_DATA
        (packTelemetry 16384 0 0 1000 0 0 300 0 0 1234) 1).imu.gyroY
      = ((0 : ℝ) / 32768) * 500 * (Real.pi / 180)
    ∧ (processReceivedData initTelemetry ID_INTEGRATED_DATA
        (packTelemetry 16384 0 0 1000 0 0 300 0 0 1234) 1).imu.gyroZ
      = ((0 : ℝ) / 32768) * 500 * (Real.pi / 180)
    ∧ (processReceivedData initTelemetry ID_INTEGRATED_DATA
        (packTelemetry 16384 0 0 1000 0 0 300 0 0 1234) 1).odom.vx
      = ((300 : Int) : ℝ) / 1000
    ∧ (processReceivedData initTelemetry ID_INTEGRATED_DATA
        (packTelemetry 16384 0 0 1000 0 0 300 0 0 1234) 1).odom.vy
      = ((0 : ℝ)) / 1000
    ∧ (processReceivedData initTelemetry ID_INTEGRATED_DATA
        (packTelemetry 16384 0 0 1000 0 0 300 0 0 1234) 1).odom.vw
      = ((0 : ℝ)) / 1000
    ∧ (processReceivedData initTelemetry ID_INTEGRATED_DATA
        (packTelemetry 16384 0 0 1000 0 0 300 0 0 1234) 1).battery
      = ((1234 : ℕ) : ℝ) / 100
    ∧ accelScale 16384 = 9.80665
    ∧ velScale 300 = 0.3 := by
  have := telemetry_field_scaling 16384 0 0 1000 0 0 300 0 0 1234
    (by decide) (by decide) (by decide) (by decide) (by decide) (by decide)
    (by decide) (by decide) (by decide) (by decide) initTelemetry 1
  simpa using this

/-! ## Claim C9 -/

/-- Claim C9 counterexample: after a transport read error inside the read
loop, the session is flagged disconnected but the commanded velocity is
*not* zeroed and the serial port is *not* closed — and a subsequent
`disconnect()` is a guarded no-op, so this exit path never zeroes the
velocity or releases the transport, contradicting the every-exit-path
guarantee. -/
theorem read_error_exit_path_cex :
    sConn.isConnected = true
    ∧ sConn.velocity = ⟨1, 0, 0⟩
    ∧ sConn.serialOpen = true
    ∧ (readLoopError sConn).isConnected = false
    ∧ disconnect (readLoopError sConn) = readLoopError sConn
    ∧ (disconnect (readLoopError sConn)).velocity = ⟨1, 0, 0⟩
    ∧ (disconnect (readLoopError sConn)).serialOpen = true := by
  refine ⟨rfl, rfl, rfl, rfl, ?_, ?_, ?_⟩ <;> simp [disconnect, readLoopError, sConn]

/-- Claim C9 (amended): `disconnect()` on a *connected* session zeroes the
commanded velocity, stops the loop, closes the transport and marks the
session disconnected; on an already-disconnected session it changes no
state; but the transport-read-error path only clears the connected flag —
it leaves the commanded velocity and the open transport untouched, and
the subsequent guarded `disconnect()` is then a no-op. -/
theorem disconnect_lifecycle (s : Session) :
    (s.isConnected = true →
      disconnect s = ⟨false, false, false, ⟨0, 0, 0⟩⟩) ∧
    (s.isConnected = false → disconnect s = s) ∧
    disconnect (readLoopError s) = readLoopError s ∧
    (readLoopError s).velocity = s.velocity ∧
    (readLoopError s).serialOpen = s.serialOpen := by
  refine ⟨fun h => by simp [disconnect, h], fun h => by simp [disconnect, h],
    by simp [disconnect, readLoopError], rfl, rfl⟩

/-- Witness for C9 (amended) on the concrete connected session. -/
theorem disconnect_lifecycle_witness :
    disconnect sConn = ⟨false, false, false, ⟨0, 0, 0⟩⟩ :=
  (disconnect_lifecycle sConn).1 rfl

/-! ## Claim C10 -/

/-- Claim C10: on a connected session, `set_velocity` raises an uncaught
`struct.error` — before any bytes are written and with the stored
commanded velocity unchanged — exactly when some component scaled by 1000
and truncated toward zero leaves the signed 16-bit range; for all
in-range components it never raises and writes the encoded velocity
frame while storing the new commanded velocity. -/
theorem set_velocity_int16_range (s : Session) (vx vy vw : ℚ)
    (hc : s.isConnected = true) :
    (¬(inInt16 (pyTrunc (vx * 1000)) ∧ inInt16 (pyTrunc (vy * 1000)) ∧
        inInt16 (pyTrunc (vw * 1000))) →
      setVelocity s vx vy vw = .raised s) ∧
    ((inInt16 (pyTrunc (vx * 1000)) ∧ inInt16 (pyTrunc (vy * 1000)) ∧
        inInt16 (pyTrunc (vw * 1000))) →
      setVelocity s vx vy vw = .sent { s with velocity := ⟨vx, vy, vw⟩ }
        (encodePacket CMD_VELOCITY (i16le (pyTrunc (vx * 1000)) ++
          i16le (pyTrunc (vy * 1000)) ++ i16le (pyTrunc (vw * 1000))))) := by
  constructor <;> intro h <;> simp [setVelocity, hc, pack3h, h]

/-- Witness for C10: `set_velocity(40, 0, 0)` (40000 out of range) raises
with the state unchanged and nothing written. -/
theorem set_velocity_int16_range_witness :
    setVelocity sConn 40 0 0 = .raised sConn :=
  (set_velocity_int16_range sConn 40 0 0 rfl).1
    (by norm_num [pyTrunc, inInt16])

end XtarkR20
